import Mathlib

/-!
Verification of the weather-app repository: a shallow embedding of the two
script components (`TheWeather.vue` and the map/geocode component) and proofs
about their data-shaping logic, cache policy and error handling.

Conventions of the embedding:
* JS numbers carrying quantities (temperature, wind, coordinates) are `ℚ`;
  unix timestamps (`dt`, `Date.now()`) are `Nat` milliseconds/seconds as in
  the source.
* A JS value that may be `undefined`/`null` is an `Option`.
* `new Date(dt*1000).toDateString()` groups entries by calendar day; it is
  modeled by the day index `dt / 86400` (host timezone taken as UTC).  The
  string rendering of the day is a presentation detail; the index is
  injective on calendar days exactly as `toDateString` is.
* The `Map` cache is an association list with JS `Map` semantics: `set` on an
  existing key updates the value in place keeping insertion order, `set` on a
  new key appends.
* Network effects are inputs: a fetch step takes a `FetchOutcome` describing
  what the environment did, and reports whether a network call was issued.
-/

namespace WeatherApp

/-- One element of the forecast payload's `list`, after `res.json()`:
`{dt, dt_txt, main: {temp, humidity}, weather: [...], wind?, pop?}`. -/
structure MainInfo where
  temp : ℚ
  humidity : ℚ
  deriving Repr, DecidableEq

/-- One element of a forecast entry's `weather` array. -/
structure WeatherCondition where
  main : String
  description : String
  icon : String
  deriving Repr, DecidableEq

/-- The optional `wind` object of a forecast entry. -/
structure WindInfo where
  speed : ℚ
  deriving Repr, DecidableEq

/-- A raw forecast entry (interface `WeatherEntry` in `TheWeather.vue`). -/
structure WeatherEntry where
  dt : Nat
  dt_txt : String
  main : MainInfo
  weather : List WeatherCondition
  wind : Option WindInfo
  pop : Option ℚ
  deriving Repr, DecidableEq

/-- The `city` object of the forecast payload: `{name, country}`. -/
structure CityInfo where
  name : String
  country : String
  deriving Repr, DecidableEq

/-- A parsed forecast response body.  `list` and `city` are optional because
`processWeatherData` validates their presence (`!data.list || !data.city`);
`message` is the error text OpenWeather puts on non-success responses. -/
structure RawPayload where
  list : Option (List WeatherEntry)
  city : Option CityInfo
  message : Option String
  deriving Repr, DecidableEq

/-- Interface `DailyWeather`: one day group of the prepared data.  The source
keys groups by the `toDateString()` string; here `date` is the day index. -/
structure DailyWeather where
  date : Nat
  weatherEntries : List WeatherEntry
  deriving Repr, DecidableEq

/-- Interface `LocationInfo`: `{name, country}` with the country already
mapped through `Intl.DisplayNames`. -/
structure LocationInfo where
  name : String
  country : String
  deriving Repr, DecidableEq

/-- One value of the `weatherCache` map: `{timestamp, data}`.  `data` is the
raw parsed body (`Option` because `res.json()` can produce `null`). -/
structure CacheEntry where
  timestamp : Nat
  data : Option RawPayload
  deriving Repr, DecidableEq

/-- The reactive state of the `TheWeather.vue` component. -/
structure WeatherState where
  locationInfoData : Option LocationInfo
  completeWeatherData : List WeatherEntry
  dailyWeatherData : List DailyWeather
  isLoading : Bool
  error : Option String
  lastFetchedCity : Option String
  weatherCache : List (String × CacheEntry)
  deriving Repr, DecidableEq

/-- The initial values of the component's refs. -/
def initialState : WeatherState :=
  { locationInfoData := none
    completeWeatherData := []
    dailyWeatherData := []
    isLoading := false
    error := none
    lastFetchedCity := none
    weatherCache := [] }

/-- `const targetHours = [6, 12, 18, 21]`. -/
def targetHours : List Nat := [6, 12, 18, 21]

/-- `const CACHE_DURATION = 10 * 60 * 1000` (milliseconds). -/
def CACHE_DURATION : Nat := 10 * 60 * 1000

/-- `new Date(entry.dt * 1000).getUTCHours()`. -/
def utcHour (dt : Nat) : Nat := dt / 3600 % 24

/-- Day index of `new Date(entry.dt * 1000).toDateString()` (see header). -/
def dateKey (dt : Nat) : Nat := dt / 86400

/-- JS `a || b` on an optional string `a` (falsy = absent or empty). -/
def jsOrStr (a : Option String) (b : String) : String :=
  match a with
  | some s => if s = "" then b else s
  | none => b

/-- JS `Map.prototype.get`. -/
def mapGet (m : List (String × CacheEntry)) (k : String) : Option CacheEntry :=
  (m.find? (fun p => p.1 == k)).map (·.2)

/-- JS `Map.prototype.set`: update in place on an existing key (keeping the
original insertion position), append otherwise. -/
def mapSet (m : List (String × CacheEntry)) (k : String) (v : CacheEntry) :
    List (String × CacheEntry) :=
  if m.any (fun p => p.1 == k) then
    m.map (fun p => if p.1 == k then (p.1, v) else p)
  else m ++ [(k, v)]

/-- Property access `groups[dateString]` on the accumulator object of the
`reduce` in `processWeatherData` (a JS object has at most one binding per
key, so an insertion-ordered association list models it). -/
def lookupG : List (Nat × List WeatherEntry) → Nat → Option (List WeatherEntry)
  | [], _ => none
  | g :: gs, k => if g.1 = k then some g.2 else lookupG gs k

/-- One step of the `data.list.reduce` accumulator in `processWeatherData`:
create the day group if absent (`if (!groups[dateString]) groups[dateString]
= []`), then push the entry when its UTC hour is in `targetHours`. -/
def insertGrouped (groups : List (Nat × List WeatherEntry)) (entry : WeatherEntry) :
    List (Nat × List WeatherEntry) :=
  let k := dateKey entry.dt
  let groups1 :=
    if (lookupG groups k).isSome then groups else groups ++ [(k, [])]
  if targetHours.contains (utcHour entry.dt) then
    groups1.map (fun g => if g.1 = k then (g.1, g.2 ++ [entry]) else g)
  else groups1

/-- The whole `reduce`: groups in first-seen key order (the order
`Object.entries` later reproduces). -/
def prepareData (list : List WeatherEntry) : List (Nat × List WeatherEntry) :=
  list.foldl insertGrouped []

/-- The entries of `list` that belong to day `k` and pass the hour filter, in
source order: the contents the reduce accumulates into the group of `k`. -/
def bucketFilter (list : List WeatherEntry) (k : Nat) : List WeatherEntry :=
  list.filter (fun e => (dateKey e.dt == k) && targetHours.contains (utcHour e.dt))

/-- The day keys of a group list, in order. -/
def keysOf (groups : List (Nat × List WeatherEntry)) : List Nat :=
  groups.map Prod.fst

/-- `resetData`: clear the three derived display refs. -/
def resetData (s : WeatherState) : WeatherState :=
  { s with locationInfoData := none, dailyWeatherData := [], completeWeatherData := [] }

/-- The message set by `processWeatherData` on shape-validation failure. -/
def invalidDataMsg : String := "Ungültige Wetterdaten erhalten"

/-- `processWeatherData`, parametric in the `Intl.DisplayNames` lookup `dn`
(an environment facility: region code to localized display name, `none` when
unmappable). -/
def processWeatherData (dn : String → Option String) (data : Option RawPayload)
    (s : WeatherState) : WeatherState :=
  match data with
  | none => { resetData s with error := some invalidDataMsg }
  | some p =>
    match p.list, p.city with
    | some list, some city =>
      { s with
        completeWeatherData := list
        dailyWeatherData :=
          (prepareData list).map (fun g => { date := g.1, weatherEntries := g.2 })
        locationInfoData :=
          some { name := city.name, country := jsOrStr (dn city.country) city.country } }
    | some _, none => { resetData s with error := some invalidDataMsg }
    | none, _ => { resetData s with error := some invalidDataMsg }

/-- `computed(() => completeWeatherData.value[0] || null)`. -/
def currentWeather (s : WeatherState) : Option WeatherEntry :=
  s.completeWeatherData.head?

/-- `computed(() => dailyWeatherData.value[0]?.weatherEntries ?? [])`. -/
def todayBlocks (s : WeatherState) : List WeatherEntry :=
  ((s.dailyWeatherData.head?).map (·.weatherEntries)).getD []

/-- `computed(() => dailyWeatherData.value.slice(1))`. -/
def nextDays (s : WeatherState) : List DailyWeather :=
  s.dailyWeatherData.drop 1

/-- What the environment did for one forecast fetch.
`failure` is any throw that happens before the cache write: the `fetch` call
rejecting, `res.json()` failing to parse, or the `TypeError` from reading
`.message` off a `null` error body; `isError` tells whether the thrown value
is an `Error` instance (whose `message` is `msg`).
`response ok data` is a resolved response with status-success flag `res.ok`
and parsed body `data` (`none` models a `null` JSON body). -/
inductive FetchOutcome where
  | failure (isError : Bool) (msg : String)
  | response (ok : Bool) (data : Option RawPayload)
  deriving Repr, DecidableEq

/-- Fallback message thrown on a non-success status without a usable
server message: `data.message || 'Fehler beim Abrufen der Wetterdaten'`. -/
def fetchErrorMsg : String := "Fehler beim Abrufen der Wetterdaten"

/-- Catch-branch fallback for a thrown value that is not an `Error`. -/
def unknownErrorMsg : String := "Unbekannter Fehler beim Laden der Daten"

/-- Message of the `TypeError` thrown by `data.message` when the non-success
body parsed to `null` (V8 wording; an `Error` instance, so it is surfaced). -/
def nullMessageTypeError : String := "Cannot read properties of null (reading 'message')"

/-- The part of `fetchWeatherForecast` past the guards: set loading state,
record the requested city, then fetch; on success-status cache the raw body
and process it, otherwise surface an error message and reset the derived
data; `isLoading` is cleared in `finally`.  Returns the new state and `true`
(a network call was issued). -/
def fetchFromNetwork (dn : String → Option String) (now : Nat) (outcome : FetchOutcome)
    (cityName : String) (s : WeatherState) : WeatherState × Bool :=
  let s1 := { s with error := none, isLoading := true, lastFetchedCity := some cityName }
  match outcome with
  | .failure isError msg =>
    ({ resetData s1 with
        error := some (if isError then msg else unknownErrorMsg), isLoading := false }, true)
  | .response ok data =>
    if ok then
      let s2 := { s1 with weatherCache := mapSet s1.weatherCache cityName ⟨now, data⟩ }
      ({ processWeatherData dn data s2 with isLoading := false }, true)
    else
      let msg :=
        match data with
        | some p =>
          match p.message with
          | some m => if m = "" then fetchErrorMsg else m
          | none => fetchErrorMsg
        | none => nullMessageTypeError
      ({ resetData s1 with error := some msg, isLoading := false }, true)

/-- `fetchWeatherForecast(cityName)`: empty-name guard, duplicate-fetch guard
(`cityName === lastFetchedCity.value`), fresh-cache reprocessing, else the
network path.  The Boolean of the result records whether a network call was
issued. -/
def fetchWeatherForecast (dn : String → Option String) (now : Nat) (outcome : FetchOutcome)
    (cityName : String) (s : WeatherState) : WeatherState × Bool :=
  if cityName = "" then (s, false)
  else if s.lastFetchedCity = some cityName then (s, false)
  else
    match mapGet s.weatherCache cityName with
    | some cachedData =>
      if now - cachedData.timestamp < CACHE_DURATION then
        (processWeatherData dn cachedData.data s, false)
      else fetchFromNetwork dn now outcome cityName s
    | none => fetchFromNetwork dn now outcome cityName s

/-- The sweep's sort callback `(a, b) => b[1].timestamp - a[1].timestamp` as
a Boolean ordering: `a` may come before `b` when its timestamp is at least
`b`'s (descending by timestamp). -/
def tsLe (a b : String × CacheEntry) : Bool := decide (b.2.timestamp ≤ a.2.timestamp)

/-- `cleanupCache`: when the map holds more than 10 entries, keep only the 5
with the most recent timestamps (stable `sort` descending by timestamp, as in
JS, then `slice(0, 5)`). -/
def cleanupCache (c : List (String × CacheEntry)) : List (String × CacheEntry) :=
  if c.length > 10 then (c.mergeSort tsLe).take 5 else c

/-- The shape validation `!data || !data.list || !data.city` of
`processWeatherData` fails (a JSON `null` body, or a missing `list` or `city`
field). -/
def shapeInvalid (data : Option RawPayload) : Bool :=
  match data with
  | none => true
  | some p => p.list.isNone || p.city.isNone

/-- An `Intl.DisplayNames` environment that maps no region code (used for
concrete evaluations; theorems quantify over the lookup). -/
def noDisplayNames : String → Option String := fun _ => none

/-- A concrete forecast entry at unix second `dt` (used in witnesses). -/
def sampleEntry (dt : Nat) : WeatherEntry :=
  { dt := dt, dt_txt := "", main := { temp := 10, humidity := 50 },
    weather := [{ main := "Clear", description := "klar", icon := "01d" }],
    wind := none, pop := none }

/-- A raw list with UTC hours 3, 6, 9, 12, 15, 18, 21 on the first day and
hour 0 on the second day (the spec's worked example). -/
def sampleList : List WeatherEntry :=
  [sampleEntry (3 * 3600), sampleEntry (6 * 3600), sampleEntry (9 * 3600),
   sampleEntry (12 * 3600), sampleEntry (15 * 3600), sampleEntry (18 * 3600),
   sampleEntry (21 * 3600), sampleEntry (24 * 3600)]

/-- A well-formed concrete forecast payload. -/
def samplePayload : RawPayload :=
  { list := some sampleList, city := some { name := "Berlin", country := "DE" },
    message := none }

/-- A success-status payload that fails shape validation (no `list`/`city`). -/
def invalidPayload : RawPayload := { list := none, city := none, message := none }

/-- A state whose cache holds a fresh entry for city B while city A was the
last requested city (used in witnesses). -/
def cachedState : WeatherState :=
  { initialState with
    lastFetchedCity := some "A"
    weatherCache := [("B", { timestamp := 0, data := some samplePayload })] }

/-- A state that cached a shape-invalid payload for city A and last requested
city B (used in witnesses). -/
def staleBadState : WeatherState :=
  { initialState with
    lastFetchedCity := some "B"
    weatherCache := [("A", { timestamp := 0, data := some invalidPayload })] }

/-- A concrete 11-entry cache with distinct timestamps 0..10. -/
def cache11 : List (String × CacheEntry) :=
  (List.range 11).map (fun i => (toString i, { timestamp := i, data := none }))

end WeatherApp

namespace MapApp

/-- Three-digit zero-padded fractional part for `toFixed(3)`. -/
def pad3 (n : Nat) : String :=
  if n < 10 then "00" ++ toString n
  else if n < 100 then "0" ++ toString n
  else toString n

/-- `Number.prototype.toFixed(3)`: round the magnitude to the nearest
thousandth (ties away from zero, per the ES specification's "pick the larger
n" on the magnitude), render with exactly three decimals, and prepend the
sign taken from the original value. -/
def toFixed3 (q : ℚ) : String :=
  let x : ℚ := |q| * 1000
  let n : Nat := (⌊x⌋ + if (1 : ℚ) / 2 ≤ x - (⌊x⌋ : ℚ) then 1 else 0).toNat
  (if q < 0 then "-" else "") ++ toString (n / 1000) ++ "." ++ pad3 (n % 1000)

/-- The `components` object of the first geocode result:
`{_normalized_city?, city?}`. -/
structure GeocodeComponents where
  _normalized_city : Option String
  city : Option String
  deriving Repr, DecidableEq

/-- One element of the geocode response's `results` array. -/
structure GeocodeResult where
  components : Option GeocodeComponents
  deriving Repr, DecidableEq

/-- A parsed reverse-geocode response body: `{results?: [...]}`. -/
structure GeocodeData where
  results : Option (List GeocodeResult)
  deriving Repr, DecidableEq

/-- JS `a || b` for two optional strings (falsy = absent or empty); the
result may still be absent. -/
def jsOrOpt (a b : Option String) : Option String :=
  match a with
  | some s => if s = "" then b else some s
  | none => b

/-- The response-shaping part of `getCityName`:
`const components = data.results?.[0]?.components || {}` followed by
`return (components._normalized_city || components.city) ?? 'n.V.'`. -/
def getCityName (data : GeocodeData) : String :=
  let components :=
    ((data.results.getD []).head?.bind (fun r => r.components)).getD ⟨none, none⟩
  (jsOrOpt components._normalized_city components.city).getD "n.V."

/-- Sentinel returned by `getCityName`'s catch branch. -/
def geocodeErrorMsg : String := "error fetching city name"

/-- What the environment did for one reverse-geocode fetch. -/
inductive GeocodeOutcome where
  | failure
  | response (data : GeocodeData)
  deriving Repr, DecidableEq

/-- `getCityName` including its try/catch around the fetch. -/
def getCityNameResult (o : GeocodeOutcome) : String :=
  match o with
  | .failure => geocodeErrorMsg
  | .response d => getCityName d

/-- `event.detail.mapPoint`: coordinates may be absent, and the spatial
reference is abstracted to its `isWebMercator` flag (all the source reads). -/
structure MapPoint where
  latitude : Option ℚ
  longitude : Option ℚ
  isWebMercator : Bool
  deriving Repr, DecidableEq

/-- The reactive state of the map component: the two coordinate display
strings and the resolved city name handed to the weather component. -/
structure MapState where
  locationLatitude : Option String
  locationLongitude : Option String
  cityName : Option String
  deriving Repr, DecidableEq

/-- The `console.warn` text of the spatial-reference rejection branch. -/
def spatialRefWarning : String := "coordinates spatial reference not WGS84:"

/-- JS falsiness of an optional number (`undefined`, `null` or `0`). -/
def jsFalsyNum (a : Option ℚ) : Bool :=
  match a with
  | none => true
  | some q => q == 0

/-- `onViewClick`: reject non-WebMercator points with a warning and no state
change; otherwise write the coordinate display strings, using the `'n.V.'`
sentinel when either coordinate is falsy.  Returns the new state and the list
of warnings recorded. -/
def onViewClick (p : MapPoint) (s : MapState) : MapState × List String :=
  if p.isWebMercator = false then (s, [spatialRefWarning])
  else if jsFalsyNum p.latitude || jsFalsyNum p.longitude then
    ({ s with locationLatitude := some "n.V.", locationLongitude := some "n.V." }, [])
  else
    ({ s with locationLatitude := p.latitude.map toFixed3,
              locationLongitude := p.longitude.map toFixed3 }, [])

/-- `onViewClick` composed with the `watch([locationLatitude,
locationLongitude], ...)` reaction: the watcher fires only when a coordinate
ref actually changed (Vue compares with `===`, here value equality of the
option strings), and then resolves a city name (`resolve` stands for the
awaited `getCityName` call) when both are truthy, else resets it to null. -/
def clickStep (resolve : String → String → String) (p : MapPoint) (s : MapState) :
    MapState × List String :=
  let r := onViewClick p s
  let s1 := r.1
  if s1.locationLatitude = s.locationLatitude ∧ s1.locationLongitude = s.locationLongitude then
    r
  else
    match s1.locationLatitude, s1.locationLongitude with
    | some lat, some lon =>
      if lat ≠ "" ∧ lon ≠ "" then ({ s1 with cityName := some (resolve lat lon) }, r.2)
      else ({ s1 with cityName := none }, r.2)
    | some _, none => ({ s1 with cityName := none }, r.2)
    | none, _ => ({ s1 with cityName := none }, r.2)

/-- A geocode response whose first result has an empty components object. -/
def emptyComponentsResponse : GeocodeData :=
  { results := some [{ components := some { _normalized_city := none, city := none } }] }

/-- A click point carrying a non-WebMercator spatial reference. -/
def otherSRPoint : MapPoint :=
  { latitude := some 1, longitude := some 2, isWebMercator := false }

/-- A concrete map state with previously resolved coordinates and city. -/
def sampleMapState : MapState :=
  { locationLatitude := some "24.000", locationLongitude := some "57.000",
    cityName := some "Riga" }

end MapApp

namespace WeatherApp

/-- Appending a fresh empty group only changes lookups of its key, and only
when that key was absent. -/
theorem lookupG_append_new (gs : List (Nat × List WeatherEntry)) (k0 k : Nat) :
    lookupG (gs ++ [(k0, [])]) k =
      match lookupG gs k with
      | some bs => some bs
      | none => if k = k0 then some [] else none := by
  induction gs with
  | nil =>
    simp only [List.nil_append, lookupG]
    by_cases h : k = k0
    · subst h; simp
    · rw [if_neg (fun h2 => h h2.symm), if_neg h]
  | cons g gs ih =>
    by_cases h : g.1 = k
    · simp [lookupG, h]
    · simpa [lookupG, h] using ih

/-- Updating the group of key `k0` in place only changes the lookup at `k0`,
appending the entry there. -/
theorem lookupG_update (gs : List (Nat × List WeatherEntry)) (k0 k : Nat) (e : WeatherEntry) :
    lookupG (gs.map (fun g => if g.1 = k0 then (g.1, g.2 ++ [e]) else g)) k =
      if k = k0 then (lookupG gs k).map (fun bs => bs ++ [e]) else lookupG gs k := by
  induction gs with
  | nil => simp only [List.map_nil, lookupG]; split <;> rfl
  | cons g gs ih =>
    simp only [List.map_cons, lookupG]
    by_cases hg : g.1 = k0
    · by_cases hk : g.1 = k
      · have h1 : k = k0 := hk.symm.trans hg
        simp [lookupG, hg, hk, h1]
      · have h1 : ¬ k0 = k := fun h => hk (hg.symm ▸ h)
        have h2 : ¬ k = k0 := fun h => h1 h.symm
        simp [lookupG, hg, hk, h1, h2, ih]
    · by_cases hk : g.1 = k
      · have h1 : ¬ k = k0 := fun h => hg (hk.trans h)
        simp [lookupG, hg, hk, h1]
      · simp [lookupG, hg, hk, ih]

/-- Effect of one reduce step on group lookups: the entry's day group gains
the entry exactly when its hour passes the filter, and is created (possibly
empty) if it did not exist; no other group changes. -/
theorem lookupG_insertGrouped (gs : List (Nat × List WeatherEntry)) (e : WeatherEntry) (k : Nat) :
    lookupG (insertGrouped gs e) k =
      if k = dateKey e.dt then
        some ((lookupG gs k).getD [] ++
          (if targetHours.contains (utcHour e.dt) then [e] else []))
      else lookupG gs k := by
  unfold insertGrouped
  cases hLook : lookupG gs (dateKey e.dt) with
  | some bs =>
    by_cases hc : targetHours.contains (utcHour e.dt)
    · simp only [hLook, Option.isSome_some, if_true, hc, lookupG_update]
      by_cases hk : k = dateKey e.dt
      · subst hk; simp [hLook]
      · simp [hk]
    · simp only [hLook, Option.isSome_some, if_true, hc, if_false, Bool.false_eq_true]
      by_cases hk : k = dateKey e.dt
      · subst hk; simp [hLook]
      · simp [hk]
  | none =>
    by_cases hc : targetHours.contains (utcHour e.dt)
    · simp only [hLook, Option.isSome_none, Bool.false_eq_true, if_false, hc, if_true,
        lookupG_update, lookupG_append_new]
      by_cases hk : k = dateKey e.dt
      · subst hk; simp [hLook]
      · simp only [if_neg hk]
        cases h2 : lookupG gs k <;> simp [hk]
    · simp only [hLook, Option.isSome_none, Bool.false_eq_true, if_false, hc,
        lookupG_append_new]
      by_cases hk : k = dateKey e.dt
      · subst hk; simp [hLook]
      · simp only [if_neg hk]
        cases h2 : lookupG gs k <;> simp [hk]

/-- Lookup after folding the whole list: an existing group gains exactly the
filtered entries of its day in source order; a group appears fresh exactly
when the list mentions its day. -/
theorem lookupG_foldl (l : List WeatherEntry) :
    ∀ (gs : List (Nat × List WeatherEntry)) (k : Nat),
    lookupG (l.foldl insertGrouped gs) k =
      match lookupG gs k with
      | some bs => some (bs ++ bucketFilter l k)
      | none =>
        if l.any (fun e => dateKey e.dt == k) then some (bucketFilter l k) else none := by
  induction l with
  | nil =>
    intro gs k
    cases h : lookupG gs k <;> simp [bucketFilter, h]
  | cons e l ih =>
    intro gs k
    rw [List.foldl_cons, ih, lookupG_insertGrouped]
    by_cases hk : k = dateKey e.dt
    · have hbeq : (dateKey e.dt == k) = true := by simp [hk]
      by_cases hc : utcHour e.dt ∈ targetHours
      · simp only [if_pos hk, List.contains_iff_exists_mem_beq]
        rw [if_pos ⟨utcHour e.dt, hc, by simp⟩]
        cases h : lookupG gs k with
        | some bs =>
          simp [bucketFilter, List.filter_cons, hbeq, hc, h]
        | none =>
          simp [bucketFilter, List.filter_cons, List.any_cons, hbeq, hc, h]
      · have hcb : ¬ targetHours.contains (utcHour e.dt) = true := by
          simpa using hc
        simp only [if_pos hk, if_neg hcb]
        cases h : lookupG gs k with
        | some bs =>
          simp [bucketFilter, List.filter_cons, hbeq, hc, h]
        | none =>
          simp [bucketFilter, List.filter_cons, List.any_cons, hbeq, hc, h]
    · have hbeq : (dateKey e.dt == k) = false := by
        simp only [beq_eq_false_iff_ne, ne_eq]
        exact fun h2 => hk h2.symm
      simp only [if_neg hk]
      cases h : lookupG gs k with
      | some bs => simp [bucketFilter, List.filter_cons, hbeq, h]
      | none => simp [bucketFilter, List.filter_cons, List.any_cons, hbeq, h]

/-- One reduce step either keeps the key list or appends the new day key. -/
theorem keysOf_insertGrouped (gs : List (Nat × List WeatherEntry)) (e : WeatherEntry) :
    keysOf (insertGrouped gs e) =
      if (lookupG gs (dateKey e.dt)).isSome then keysOf gs
      else keysOf gs ++ [dateKey e.dt] := by
  unfold insertGrouped keysOf
  have hmap : ∀ (gs1 : List (Nat × List WeatherEntry)),
      (gs1.map (fun g => if g.1 = dateKey e.dt then (g.1, g.2 ++ [e]) else g)).map Prod.fst =
        gs1.map Prod.fst := by
    intro gs1
    rw [List.map_map]
    apply List.map_congr_left
    intro g _
    by_cases h : g.1 = dateKey e.dt <;> simp [h]
  cases hLook : lookupG gs (dateKey e.dt) with
  | some bs =>
    by_cases hc : utcHour e.dt ∈ targetHours <;>
      simp [hLook, hc, hmap]
  | none =>
    by_cases hc : utcHour e.dt ∈ targetHours <;>
      simp [hLook, hc, hmap]

/-- A key is present in the accumulator exactly when its lookup succeeds. -/
theorem lookupG_isSome_iff (gs : List (Nat × List WeatherEntry)) (k : Nat) :
    (lookupG gs k).isSome = true ↔ k ∈ keysOf gs := by
  induction gs with
  | nil => simp [lookupG, keysOf]
  | cons g gs ih =>
    by_cases h : g.1 = k
    · simp [lookupG, keysOf, h]
    · have h2 : ¬ k = g.1 := fun h2 => h h2.symm
      simp [lookupG, keysOf, h, h2, ih]

/-- Folding preserves distinctness of the day keys. -/
theorem nodup_keys_foldl (l : List WeatherEntry) :
    ∀ gs, (keysOf gs).Nodup → (keysOf (l.foldl insertGrouped gs)).Nodup := by
  induction l with
  | nil => intro gs h; exact h
  | cons e l ih =>
    intro gs h
    rw [List.foldl_cons]
    apply ih
    rw [keysOf_insertGrouped]
    cases hLook : lookupG gs (dateKey e.dt) with
    | some bs => simpa [hLook] using h
    | none =>
      have hnm : dateKey e.dt ∉ keysOf gs := by
        intro hm
        have := (lookupG_isSome_iff gs (dateKey e.dt)).mpr hm
        rw [hLook] at this
        simp at this
      have hdisj : (keysOf gs).Disjoint [dateKey e.dt] := by
        intro a ha hb
        rw [List.mem_singleton] at hb
        subst hb
        exact hnm ha
      simp only [hLook, Option.isSome_none, Bool.false_eq_true, if_false]
      exact List.nodup_append.mpr ⟨h, List.nodup_singleton _, hdisj⟩

/-- The day keys of the prepared data are distinct. -/
theorem nodup_keys_prepareData (l : List WeatherEntry) : (keysOf (prepareData l)).Nodup :=
  nodup_keys_foldl l [] (by simp [keysOf])

/-- With distinct keys, membership of a group pins down its lookup. -/
theorem lookupG_of_mem (gs : List (Nat × List WeatherEntry)) (k : Nat) (bs : List WeatherEntry)
    (hnd : (keysOf gs).Nodup) (hm : (k, bs) ∈ gs) : lookupG gs k = some bs := by
  induction gs with
  | nil => cases hm
  | cons g gs ih =>
    have hcons : (g.1 :: keysOf gs).Nodup := hnd
    rcases List.mem_cons.mp hm with h | hm2
    · subst h; simp [lookupG]
    · have hk : k ∈ keysOf gs := List.mem_map_of_mem Prod.fst hm2
      have hne : ¬ g.1 = k := fun hgk => (List.nodup_cons.mp hcons).1 (hgk ▸ hk)
      rw [lookupG, if_neg hne]
      exact ih (List.nodup_cons.mp hcons).2 hm2

/-- Master characterization: every produced group holds exactly the filtered
entries of its day, in source order. -/
theorem bucket_eq_filter (l : List WeatherEntry) (k : Nat) (bs : List WeatherEntry)
    (hm : (k, bs) ∈ prepareData l) : bs = bucketFilter l k := by
  have h1 : lookupG (prepareData l) k = some bs :=
    lookupG_of_mem _ _ _ (nodup_keys_prepareData l) hm
  have h2 := lookupG_foldl l [] k
  unfold prepareData at h1
  rw [h1] at h2
  simp only [lookupG] at h2
  by_cases ha : l.any (fun e => dateKey e.dt == k) = true
  · rw [if_pos ha] at h2
    exact Option.some_injective _ h2
  · rw [if_neg ha] at h2
    cases h2

/-- A day key is produced exactly when some entry of the list has that day. -/
theorem mem_keys_prepareData (l : List WeatherEntry) (k : Nat) :
    k ∈ keysOf (prepareData l) ↔ ∃ e ∈ l, dateKey e.dt = k := by
  rw [← lookupG_isSome_iff]
  unfold prepareData
  rw [lookupG_foldl l [] k]
  simp only [lookupG]
  by_cases ha : l.any (fun e => dateKey e.dt == k) = true
  · rw [if_pos ha]
    simpa using List.any_eq_true.mp ha
  · rw [if_neg ha]
    constructor
    · intro h; cases h
    · intro ⟨e, he, hk⟩
      exact absurd (List.any_eq_true.mpr ⟨e, he, by simp [hk]⟩) ha

/-- `processWeatherData` never touches the last-requested-city ref. -/
theorem processWeatherData_lastFetchedCity (dn : String → Option String)
    (data : Option RawPayload) (s : WeatherState) :
    (processWeatherData dn data s).lastFetchedCity = s.lastFetchedCity := by
  unfold processWeatherData resetData
  rcases data with _ | ⟨pl, pc, pm⟩
  · rfl
  · cases pl <;> cases pc <;> rfl

/-- `processWeatherData` never touches the cache. -/
theorem processWeatherData_weatherCache (dn : String → Option String)
    (data : Option RawPayload) (s : WeatherState) :
    (processWeatherData dn data s).weatherCache = s.weatherCache := by
  unfold processWeatherData resetData
  rcases data with _ | ⟨pl, pc, pm⟩
  · rfl
  · cases pl <;> cases pc <;> rfl

/-- `processWeatherData` never touches the loading flag. -/
theorem processWeatherData_isLoading (dn : String → Option String)
    (data : Option RawPayload) (s : WeatherState) :
    (processWeatherData dn data s).isLoading = s.isLoading := by
  unfold processWeatherData resetData
  rcases data with _ | ⟨pl, pc, pm⟩
  · rfl
  · cases pl <;> cases pc <;> rfl

/-- The network path always reports that a call was issued. -/
theorem fetchFromNetwork_snd (dn : String → Option String) (now : Nat)
    (o : FetchOutcome) (city : String) (s : WeatherState) :
    (fetchFromNetwork dn now o city s).2 = true := by
  unfold fetchFromNetwork
  cases o with
  | failure b m => rfl
  | response ok data => cases ok <;> rfl

/-- The network path records the requested city as last fetched. -/
theorem fetchFromNetwork_lastFetchedCity (dn : String → Option String) (now : Nat)
    (o : FetchOutcome) (city : String) (s : WeatherState) :
    (fetchFromNetwork dn now o city s).1.lastFetchedCity = some city := by
  unfold fetchFromNetwork
  cases o with
  | failure b m => rfl
  | response ok data =>
    cases ok
    · rfl
    · simp only [if_true]
      exact processWeatherData_lastFetchedCity dn data _

/-- When a fetch issues a network call, the requested city ends up recorded
as the last fetched city. -/
theorem lastFetchedCity_of_network (dn : String → Option String) (now : Nat)
    (o : FetchOutcome) (city : String) (s : WeatherState)
    (h : (fetchWeatherForecast dn now o city s).2 = true) :
    (fetchWeatherForecast dn now o city s).1.lastFetchedCity = some city := by
  unfold fetchWeatherForecast at h ⊢
  by_cases h0 : city = ""
  · rw [if_pos h0] at h; cases h
  · rw [if_neg h0] at h ⊢
    by_cases hg : s.lastFetchedCity = some city
    · rw [if_pos hg] at h; cases h
    · rw [if_neg hg] at h ⊢
      cases hce : mapGet s.weatherCache city with
      | none =>
        simp only [hce] at h ⊢
        exact fetchFromNetwork_lastFetchedCity dn now o city s
      | some ce =>
        simp only [hce] at h ⊢
        by_cases hf : now - ce.timestamp < CACHE_DURATION
        · rw [if_pos hf] at h; cases h
        · rw [if_neg hf] at h ⊢
          exact fetchFromNetwork_lastFetchedCity dn now o city s

/-- C1: for every payload and prior state, every entry appearing in any
produced daily bucket (`dailyWeatherData`) has a UTC hour-of-day in
{6, 12, 18, 21}; an entry whose UTC hour is outside this set never appears in
a derived bucket. -/
theorem C1_bucket_entries_hour_filtered (dn : String → Option String)
    (data : Option RawPayload) (s : WeatherState) :
    ∀ d ∈ (processWeatherData dn data s).dailyWeatherData,
      ∀ e ∈ d.weatherEntries, utcHour e.dt ∈ targetHours := by
  intro d hd e he
  unfold processWeatherData at hd
  rcases data with _ | ⟨pl, pc, pm⟩
  · simp [resetData] at hd
  · cases pl with
    | none => cases pc <;> simp [resetData] at hd
    | some list =>
      cases pc with
      | none => simp [resetData] at hd
      | some city =>
        simp only [List.mem_map] at hd
        obtain ⟨g, hg, rfl⟩ := hd
        have hbf : g.2 = bucketFilter list g.1 := bucket_eq_filter list g.1 g.2 hg
        rw [hbf] at he
        have h2 := (List.mem_filter.mp he).2
        have h3 := (Bool.and_eq_true _ _).mp h2
        simpa using h3.2

/-- Witness for C1 at the spec's worked example. -/
theorem C1_witness : utcHour (sampleEntry (6 * 3600)).dt ∈ targetHours :=
  C1_bucket_entries_hour_filtered noDisplayNames (some samplePayload) initialState
    { date := 0,
      weatherEntries :=
        [sampleEntry (6 * 3600), sampleEntry (12 * 3600), sampleEntry (18 * 3600),
         sampleEntry (21 * 3600)] }
    (by decide) (sampleEntry (6 * 3600)) (by decide)

/-- C2: whenever a payload with a non-empty raw entry list is processed, the
exposed current weather is the first element of the raw, unfiltered list,
whatever its UTC hour. -/
theorem C2_current_weather_is_raw_head (dn : String → Option String) (s : WeatherState)
    (p : RawPayload) (e : WeatherEntry) (rest : List WeatherEntry) (c : CityInfo)
    (hl : p.list = some (e :: rest)) (hc : p.city = some c) :
    currentWeather (processWeatherData dn (some p) s) = some e := by
  simp only [processWeatherData, currentWeather]
  rw [hl, hc]
  rfl

/-- Witness for C2: the raw head has UTC hour 3, outside the target set, and
is still the current weather. -/
theorem C2_witness :
    currentWeather (processWeatherData noDisplayNames (some samplePayload) initialState) =
        some (sampleEntry (3 * 3600)) ∧
      utcHour (sampleEntry (3 * 3600)).dt ∉ targetHours := by
  constructor
  · exact C2_current_weather_is_raw_head noDisplayNames initialState samplePayload
      (sampleEntry (3 * 3600))
      [sampleEntry (6 * 3600), sampleEntry (9 * 3600), sampleEntry (12 * 3600),
       sampleEntry (15 * 3600), sampleEntry (18 * 3600), sampleEntry (21 * 3600),
       sampleEntry (24 * 3600)]
      { name := "Berlin", country := "DE" } rfl rfl
  · decide

/-- C3 (amended): with a cache entry present for the requested city, a
request within the 10-minute TTL issues no network call, and reprocesses the
cached raw payload when the city differs from the last requested one; a
request after the TTL issues a network call provided the city differs from
the last requested one; a request for the last requested city is suppressed
by the duplicate-fetch guard regardless of cache age. -/
theorem C3_cache_ttl (dn : String → Option String) (now : Nat) (o : FetchOutcome)
    (city : String) (s : WeatherState) (ce : CacheEntry)
    (hce : mapGet s.weatherCache city = some ce) :
    (now - ce.timestamp < CACHE_DURATION →
      (fetchWeatherForecast dn now o city s).2 = false) ∧
    (now - ce.timestamp < CACHE_DURATION → city ≠ "" →
      s.lastFetchedCity ≠ some city →
      fetchWeatherForecast dn now o city s = (processWeatherData dn ce.data s, false)) ∧
    (¬ now - ce.timestamp < CACHE_DURATION → city ≠ "" →
      s.lastFetchedCity ≠ some city →
      (fetchWeatherForecast dn now o city s).2 = true) ∧
    (s.lastFetchedCity = some city → (fetchWeatherForecast dn now o city s).2 = false) := by
  unfold fetchWeatherForecast
  by_cases h0 : city = ""
  · rw [if_pos h0]
    exact ⟨fun _ => rfl, fun _ h => absurd h0 h, fun _ h => absurd h0 h, fun _ => rfl⟩
  · rw [if_neg h0]
    by_cases hg : s.lastFetchedCity = some city
    · rw [if_pos hg]
      exact ⟨fun _ => rfl, fun _ _ h => absurd hg h, fun _ _ h => absurd hg h, fun _ => rfl⟩
    · rw [if_neg hg]
      simp only [hce]
      by_cases hf : now - ce.timestamp < CACHE_DURATION
      · rw [if_pos hf]
        exact ⟨fun _ => rfl, fun _ _ _ => rfl, fun h => absurd hf h, fun h => absurd h hg⟩
      · rw [if_neg hf]
        refine ⟨fun h => absurd h hf, fun h => absurd h hf, fun _ _ _ => ?_,
          fun h => absurd h hg⟩
        exact fetchFromNetwork_snd dn now o city s

/-- Witness for C3 (amended): with a fresh entry for city B and city A last
requested, a request for B makes no network call and reprocesses the cached
payload. -/
theorem C3_witness :
    (fetchWeatherForecast noDisplayNames 1000
        (.response true (some samplePayload)) "B" cachedState).2 = false ∧
    fetchWeatherForecast noDisplayNames 1000 (.response true (some samplePayload)) "B"
        cachedState =
      (processWeatherData noDisplayNames (some samplePayload) cachedState, false) := by
  have h := C3_cache_ttl noDisplayNames 1000 (.response true (some samplePayload)) "B"
    cachedState { timestamp := 0, data := some samplePayload } rfl
  exact ⟨h.1 (by decide), h.2.1 (by decide) (by decide) (by decide)⟩

/-- C3 counterexample: city A is fetched successfully at time 0; a request
for A at time 600001 ms — past the 10-minute TTL — issues no network call,
against the claim that it must.  (The duplicate-fetch guard fires because A
is still the last requested city.) -/
theorem C3_counterexample :
    (fetchWeatherForecast noDisplayNames 0 (.response true (some samplePayload)) "A"
        initialState).2 = true ∧
    (fetchWeatherForecast noDisplayNames 0 (.response true (some samplePayload)) "A"
        initialState).1.error = none ∧
    mapGet (fetchWeatherForecast noDisplayNames 0 (.response true (some samplePayload)) "A"
        initialState).1.weatherCache "A" =
      some { timestamp := 0, data := some samplePayload } ∧
    CACHE_DURATION ≤ 600001 - 0 ∧
    (fetchWeatherForecast noDisplayNames 600001 (.response true (some samplePayload)) "A"
        (fetchWeatherForecast noDisplayNames 0 (.response true (some samplePayload)) "A"
          initialState).1).2 = false := by
  refine ⟨rfl, ?_, ?_, by decide, ?_⟩ <;> decide

/-- C4: two successive aggregator calls with an identical city name issue at
most one network call: they never both report a network call. -/
theorem C4_no_second_network_call (dn : String → Option String) (now1 now2 : Nat)
    (o1 o2 : FetchOutcome) (city : String) (s : WeatherState) :
    ((fetchWeatherForecast dn now1 o1 city s).2 &&
      (fetchWeatherForecast dn now2 o2 city
        (fetchWeatherForecast dn now1 o1 city s).1).2) = false := by
  cases h1 : (fetchWeatherForecast dn now1 o1 city s).2 with
  | false => rfl
  | true =>
    have h2 := lastFetchedCity_of_network dn now1 o1 city s h1
    by_cases h0 : city = ""
    · subst h0
      unfold fetchWeatherForecast at h1
      rw [if_pos rfl] at h1
      cases h1
    · have h3 : ∀ s1 : WeatherState, s1.lastFetchedCity = some city →
          (fetchWeatherForecast dn now2 o2 city s1).2 = false := by
        intro s1 hs1
        unfold fetchWeatherForecast
        rw [if_neg h0, if_pos hs1]
      rw [h3 _ h2]
      rfl

/-- C5: a sweep over a cache with more than 10 entries keeps exactly 5
entries, all taken from the original cache, each stored at least as recently
as every removed entry (so exactly the 5 most-recently-stored remain, up to
timestamp ties); a sweep over 10 or fewer entries removes nothing. -/
theorem C5_cleanup_keeps_5_most_recent (c : List (String × CacheEntry)) :
    (c.length > 10 →
      (cleanupCache c).length = 5 ∧
      (∀ p ∈ cleanupCache c, p ∈ c) ∧
      (∀ p ∈ cleanupCache c, ∀ q ∈ c, q ∉ cleanupCache c →
        q.2.timestamp ≤ p.2.timestamp)) ∧
    (c.length ≤ 10 → cleanupCache c = c) := by
  constructor
  · intro hlen
    have hperm : List.Perm (c.mergeSort tsLe) c := List.mergeSort_perm c tsLe
    have hpw : (c.mergeSort tsLe).Pairwise (fun a b => tsLe a b = true) :=
      List.sorted_mergeSort
        (fun x y z hxy hyz => by
          simp only [tsLe, decide_eq_true_eq] at hxy hyz ⊢
          omega)
        (fun x y => by
          simp only [tsLe, Bool.or_eq_true, decide_eq_true_eq]
          omega)
        c
    have hcc : cleanupCache c = (c.mergeSort tsLe).take 5 := by
      unfold cleanupCache
      rw [if_pos hlen]
    refine ⟨?_, ?_, ?_⟩
    · rw [hcc, List.length_take, List.length_mergeSort]
      omega
    · intro p hp
      rw [hcc] at hp
      exact hperm.subset (List.mem_of_mem_take hp)
    · intro p hp q hq hqn
      rw [hcc] at hp hqn
      have hq2 : q ∈ c.mergeSort tsLe := hperm.symm.subset hq
      have hpw2 := hpw
      rw [← List.take_append_drop 5 (c.mergeSort tsLe)] at hq2 hpw2
      rcases List.mem_append.mp hq2 with h | h
      · exact absurd h hqn
      · have := (List.pairwise_append.mp hpw2).2.2 p hp q h
        simpa [tsLe] using this
  · intro hlen
    unfold cleanupCache
    rw [if_neg (by omega)]

/-- Witness for C5 at a concrete 11-entry cache with distinct timestamps. -/
theorem C5_witness :
    (cleanupCache cache11).length = 5 ∧
    (∀ p ∈ cleanupCache cache11, p ∈ cache11) ∧
    (∀ p ∈ cleanupCache cache11, ∀ q ∈ cache11, q ∉ cleanupCache cache11 →
      q.2.timestamp ≤ p.2.timestamp) :=
  (C5_cleanup_keeps_5_most_recent cache11).1 (by decide)

/-- A request for a non-empty city that is neither the last requested city
nor freshly cached goes to the network. -/
theorem fetch_network_path (dn : String → Option String) (now : Nat) (o : FetchOutcome)
    (city : String) (s : WeatherState) (hcity : city ≠ "")
    (hg : s.lastFetchedCity ≠ some city)
    (hmiss : ∀ ce, mapGet s.weatherCache city = some ce →
      ¬ now - ce.timestamp < CACHE_DURATION) :
    fetchWeatherForecast dn now o city s = fetchFromNetwork dn now o city s := by
  unfold fetchWeatherForecast
  rw [if_neg hcity, if_neg hg]
  cases hce : mapGet s.weatherCache city with
  | none => rfl
  | some ce => simp only [if_neg (hmiss ce hce)]

/-- C6 (amended): for every network request that ends in the Error state,
the derived display collections are cleared to empty, and the exposed error
message is: on a non-success HTTP status, the server-provided message when
present and non-empty, else the generic localized fallback (the engine's
TypeError text when the error body parsed to null); on shape-validation
failure, the fixed localized invalid-data message; on a network or parse
failure, the thrown error's own message when the thrown value is an Error,
else the generic localized fallback. -/
theorem C6_error_state (dn : String → Option String) (now : Nat) (city : String)
    (s : WeatherState) (hcity : city ≠ "") (hg : s.lastFetchedCity ≠ some city)
    (hmiss : ∀ ce, mapGet s.weatherCache city = some ce →
      ¬ now - ce.timestamp < CACHE_DURATION) :
    (∀ b msg,
      (fetchWeatherForecast dn now (.failure b msg) city s).1.error =
          some (if b then msg else unknownErrorMsg) ∧
      (fetchWeatherForecast dn now (.failure b msg) city s).1.locationInfoData = none ∧
      (fetchWeatherForecast dn now (.failure b msg) city s).1.completeWeatherData = [] ∧
      (fetchWeatherForecast dn now (.failure b msg) city s).1.dailyWeatherData = []) ∧
    (∀ p : RawPayload,
      (fetchWeatherForecast dn now (.response false (some p)) city s).1.error =
          some (match p.message with
            | some m => if m = "" then fetchErrorMsg else m
            | none => fetchErrorMsg) ∧
      (fetchWeatherForecast dn now (.response false (some p)) city s).1.locationInfoData
          = none ∧
      (fetchWeatherForecast dn now (.response false (some p)) city s).1.completeWeatherData
          = [] ∧
      (fetchWeatherForecast dn now (.response false (some p)) city s).1.dailyWeatherData
          = []) ∧
    ((fetchWeatherForecast dn now (.response false none) city s).1.error =
        some nullMessageTypeError) ∧
    (∀ data, shapeInvalid data = true →
      (fetchWeatherForecast dn now (.response true data) city s).1.error =
          some invalidDataMsg ∧
      (fetchWeatherForecast dn now (.response true data) city s).1.locationInfoData = none ∧
      (fetchWeatherForecast dn now (.response true data) city s).1.completeWeatherData = [] ∧
      (fetchWeatherForecast dn now (.response true data) city s).1.dailyWeatherData = []) := by
  refine ⟨?_, ?_, ?_, ?_⟩
  · intro b msg
    rw [fetch_network_path dn now _ city s hcity hg hmiss]
    exact ⟨rfl, rfl, rfl, rfl⟩
  · intro p
    rw [fetch_network_path dn now _ city s hcity hg hmiss]
    exact ⟨rfl, rfl, rfl, rfl⟩
  · rw [fetch_network_path dn now _ city s hcity hg hmiss]
    rfl
  · intro data hinv
    rw [fetch_network_path dn now _ city s hcity hg hmiss]
    rcases data with _ | ⟨pl, pc, pm⟩
    · exact ⟨rfl, rfl, rfl, rfl⟩
    · cases pl with
      | none => exact ⟨rfl, rfl, rfl, rfl⟩
      | some list =>
        cases pc with
        | none => exact ⟨rfl, rfl, rfl, rfl⟩
        | some city2 => simp [shapeInvalid] at hinv

/-- Witness for C6 (amended): an HTTP error body carrying
`message = "city not found"` surfaces exactly that message and clears the
derived collections. -/
theorem C6_witness :
    (fetchWeatherForecast noDisplayNames 0
        (.response false (some { list := none, city := none, message := some "city not found" }))
        "Berlin" initialState).1.error = some "city not found" ∧
    (fetchWeatherForecast noDisplayNames 0
        (.response false (some { list := none, city := none, message := some "city not found" }))
        "Berlin" initialState).1.locationInfoData = none ∧
    (fetchWeatherForecast noDisplayNames 0
        (.response false (some { list := none, city := none, message := some "city not found" }))
        "Berlin" initialState).1.completeWeatherData = [] ∧
    (fetchWeatherForecast noDisplayNames 0
        (.response false (some { list := none, city := none, message := some "city not found" }))
        "Berlin" initialState).1.dailyWeatherData = [] := by
  have h := C6_error_state noDisplayNames 0 "Berlin" initialState
    (by decide) (by intro hx; cases hx)
    (by intro ce hce; cases hce)
  have h2 := h.2.1 { list := none, city := none, message := some "city not found" }
  refine ⟨?_, h2.2.1, h2.2.2.1, h2.2.2.2⟩
  have h3 := h2.1
  simpa using h3

/-- C6 counterexample: a network failure whose thrown `Error` carries the
browser message "Failed to fetch" ends in the Error state exposing exactly
that message, which is neither server-provided (the outcome carries no
response) nor any of the app's generic localized fallback strings. -/
theorem C6_counterexample :
    (fetchWeatherForecast noDisplayNames 0 (.failure true "Failed to fetch") "Berlin"
        initialState).1.error = some "Failed to fetch" ∧
    "Failed to fetch" ≠ fetchErrorMsg ∧
    "Failed to fetch" ≠ unknownErrorMsg ∧
    "Failed to fetch" ≠ invalidDataMsg := by
  refine ⟨rfl, ?_, ?_, ?_⟩ <;> decide

/-- C9: processing a valid payload produces one daily bucket per distinct
calendar date of the raw list — the bucket count equals the number of
distinct dates, a bucket exists for a date exactly when some raw entry falls
on it, and a bucket for a date none of whose entries pass the hour filter has
an empty entries sequence. -/
theorem C9_bucket_per_distinct_date (dn : String → Option String) (s : WeatherState)
    (p : RawPayload) (list : List WeatherEntry) (city : CityInfo)
    (hl : p.list = some list) (hc : p.city = some city) :
    ((processWeatherData dn (some p) s).dailyWeatherData.length =
      (list.map (fun e => dateKey e.dt)).dedup.length) ∧
    (∀ k, (∃ d ∈ (processWeatherData dn (some p) s).dailyWeatherData, d.date = k) ↔
      ∃ e ∈ list, dateKey e.dt = k) ∧
    (∀ d ∈ (processWeatherData dn (some p) s).dailyWeatherData,
      (∀ e ∈ list, dateKey e.dt = d.date → utcHour e.dt ∉ targetHours) →
      d.weatherEntries = []) := by
  have hdwd : (processWeatherData dn (some p) s).dailyWeatherData =
      (prepareData list).map (fun g => { date := g.1, weatherEntries := g.2 }) := by
    simp only [processWeatherData]
    rw [hl, hc]
  rw [hdwd]
  refine ⟨?_, ?_, ?_⟩
  · have hmemiff : ∀ k, k ∈ keysOf (prepareData list) ↔
        k ∈ (list.map (fun e => dateKey e.dt)).dedup := by
      intro k
      rw [mem_keys_prepareData, List.mem_dedup, List.mem_map]
    have hperm : List.Perm (keysOf (prepareData list))
        ((list.map (fun e => dateKey e.dt)).dedup) :=
      (List.perm_ext_iff_of_nodup (nodup_keys_prepareData list)
        (List.nodup_dedup _)).mpr hmemiff
    have hlen := hperm.length_eq
    simpa [keysOf] using hlen
  · intro k
    rw [← mem_keys_prepareData]
    constructor
    · intro ⟨d, hd, hdk⟩
      obtain ⟨g, hg, rfl⟩ := List.mem_map.mp hd
      exact hdk ▸ List.mem_map_of_mem Prod.fst hg
    · intro hk
      obtain ⟨g, hg, hgk⟩ := List.mem_map.mp hk
      exact ⟨{ date := g.1, weatherEntries := g.2 }, List.mem_map_of_mem _ hg, hgk⟩
  · intro d hd hnone
    obtain ⟨g, hg, rfl⟩ := List.mem_map.mp hd
    have hbf : g.2 = bucketFilter list g.1 := bucket_eq_filter list g.1 g.2 hg
    show g.2 = []
    rw [hbf]
    unfold bucketFilter
    rw [List.filter_eq_nil_iff]
    intro e he
    simp only [Bool.and_eq_true, beq_iff_eq, decide_eq_true_eq, not_and]
    intro hk
    have := hnone e he hk
    simpa using this

/-- Witness for C9: the sample list spans two dates, the second having no
entry at a target hour; two buckets are produced and the second is empty. -/
theorem C9_witness :
    ((processWeatherData noDisplayNames (some samplePayload) initialState).dailyWeatherData.length
      = (sampleList.map (fun e => dateKey e.dt)).dedup.length) ∧
    (∃ e ∈ sampleList, dateKey e.dt = 1) ∧
    ({ date := 1, weatherEntries := [] } : DailyWeather).weatherEntries = [] := by
  have h := C9_bucket_per_distinct_date noDisplayNames initialState samplePayload
    sampleList { name := "Berlin", country := "DE" } rfl rfl
  refine ⟨h.1, (h.2.1 1).mp ?_, ?_⟩
  · exact ⟨{ date := 1, weatherEntries := [] }, by decide, rfl⟩
  · exact h.2.2 { date := 1, weatherEntries := [] } (by decide) (by decide)

/-- C10: on the network path, the raw payload is cached exactly when the
response has a success status — network failures and non-success statuses
leave the cache unchanged, while a success-status payload is cached before
any shape validation; and a later request finding a fresh cached
shape-invalid payload issues no network call yet reprocesses it into the
Error state with the derived collections cleared. -/
theorem C10_cache_iff_success_status (dn : String → Option String) (now : Nat)
    (city : String) (s : WeatherState) (hcity : city ≠ "")
    (hg : s.lastFetchedCity ≠ some city)
    (hmiss : ∀ ce, mapGet s.weatherCache city = some ce →
      ¬ now - ce.timestamp < CACHE_DURATION) :
    (∀ b msg,
      (fetchWeatherForecast dn now (.failure b msg) city s).1.weatherCache =
        s.weatherCache) ∧
    (∀ data,
      (fetchWeatherForecast dn now (.response false data) city s).1.weatherCache =
        s.weatherCache) ∧
    (∀ data,
      (fetchWeatherForecast dn now (.response true data) city s).1.weatherCache =
        mapSet s.weatherCache city { timestamp := now, data := data }) ∧
    (∀ (s2 : WeatherState) (o : FetchOutcome) (ce : CacheEntry),
      mapGet s2.weatherCache city = some ce →
      now - ce.timestamp < CACHE_DURATION →
      city ≠ "" → s2.lastFetchedCity ≠ some city →
      shapeInvalid ce.data = true →
      (fetchWeatherForecast dn now o city s2).2 = false ∧
      (fetchWeatherForecast dn now o city s2).1.error = some invalidDataMsg ∧
      (fetchWeatherForecast dn now o city s2).1.locationInfoData = none ∧
      (fetchWeatherForecast dn now o city s2).1.completeWeatherData = [] ∧
      (fetchWeatherForecast dn now o city s2).1.dailyWeatherData = []) := by
  refine ⟨?_, ?_, ?_, ?_⟩
  · intro b msg
    rw [fetch_network_path dn now _ city s hcity hg hmiss]
    rfl
  · intro data
    rw [fetch_network_path dn now _ city s hcity hg hmiss]
    rcases data with _ | p
    · rfl
    · rfl
  · intro data
    rw [fetch_network_path dn now _ city s hcity hg hmiss]
    show (fetchFromNetwork dn now (.response true data) city s).1.weatherCache = _
    unfold fetchFromNetwork
    simp only [if_true]
    rw [processWeatherData_weatherCache]
  · intro s2 o ce hce hfresh hcity2 hg2 hinv
    have hstep : fetchWeatherForecast dn now o city s2 =
        (processWeatherData dn ce.data s2, false) := by
      unfold fetchWeatherForecast
      rw [if_neg hcity2, if_neg hg2]
      simp only [hce]
      rw [if_pos hfresh]
    rw [hstep]
    rcases ce with ⟨ts, data⟩
    rcases data with _ | ⟨pl, pc, pm⟩
    · exact ⟨rfl, rfl, rfl, rfl, rfl⟩
    · cases pl with
      | none => exact ⟨rfl, rfl, rfl, rfl, rfl⟩
      | some list =>
        cases pc with
        | none => exact ⟨rfl, rfl, rfl, rfl, rfl⟩
        | some city3 => simp [shapeInvalid] at hinv

/-- Witness for C10: a success-status but shape-invalid payload for city A is
cached, and a later request finding it fresh reprocesses it into the Error
state without a network call. -/
theorem C10_witness :
    (fetchWeatherForecast noDisplayNames 0 (.response true (some invalidPayload)) "A"
        initialState).1.weatherCache =
      mapSet initialState.weatherCache "A" { timestamp := 0, data := some invalidPayload } ∧
    (fetchWeatherForecast noDisplayNames 0 (.response true (some invalidPayload)) "A"
        staleBadState).2 = false ∧
    (fetchWeatherForecast noDisplayNames 0 (.response true (some invalidPayload)) "A"
        staleBadState).1.error = some invalidDataMsg := by
  have h := C10_cache_iff_success_status noDisplayNames 0 "A" initialState
    (by decide) (by intro hx; cases hx) (by intro ce hce; cases hce)
  have h4 := h.2.2.2 staleBadState (.response true (some invalidPayload))
    { timestamp := 0, data := some invalidPayload } rfl (by decide) (by decide)
    (by decide) (by decide)
  exact ⟨h.2.2.1 (some invalidPayload), h4.1, h4.2.1⟩

end WeatherApp

namespace MapApp

/-- C7: the resolver's precedence over the first result's components — the
normalized city name when present and non-empty, else the generic city field
when present, else the sentinel "n.V."; in particular an empty components
object resolves to "n.V.". -/
theorem C7_place_name_precedence (d : GeocodeData) (comps : GeocodeComponents)
    (hc : ((d.results.getD []).head?.bind (fun r => r.components)).getD ⟨none, none⟩ =
      comps) :
    (∀ s, comps._normalized_city = some s → s ≠ "" → getCityName d = s) ∧
    ((comps._normalized_city = none ∨ comps._normalized_city = some "") →
      (∀ t, comps.city = some t → getCityName d = t) ∧
      (comps.city = none → getCityName d = "n.V.")) := by
  have hg : getCityName d = (jsOrOpt comps._normalized_city comps.city).getD "n.V." := by
    unfold getCityName
    rw [hc]
  rw [hg]
  constructor
  · intro s hs hne
    rw [hs]
    unfold jsOrOpt
    simp [hne]
  · intro hn
    constructor
    · intro t ht
      rcases hn with h | h <;> rw [h, ht] <;> simp [jsOrOpt]
    · intro ht
      rcases hn with h | h <;> rw [h, ht] <;> simp [jsOrOpt]

/-- Witness for C7 at the spec's example: `components = {}` resolves to the
sentinel "n.V.". -/
theorem C7_witness : getCityName emptyComponentsResponse = "n.V." :=
  ((C7_place_name_precedence emptyComponentsResponse ⟨none, none⟩ rfl).2 (Or.inl rfl)).2 rfl

/-- C8: a click whose point's spatial reference is not Web Mercator leaves
the state unchanged — the coordinate display fields and the place name keep
their previous values — and records exactly the spatial-reference warning. -/
theorem C8_non_webmercator_click_ignored (resolve : String → String → String)
    (p : MapPoint) (s : MapState) (h : p.isWebMercator = false) :
    clickStep resolve p s = (s, [spatialRefWarning]) := by
  unfold clickStep onViewClick
  rw [h]
  simp

/-- Witness for C8 at a concrete non-WebMercator click on a populated state. -/
theorem C8_witness :
    clickStep (fun _ _ => "X") otherSRPoint sampleMapState =
      (sampleMapState, [spatialRefWarning]) :=
  C8_non_webmercator_click_ignored (fun _ _ => "X") otherSRPoint sampleMapState rfl

end MapApp
